import Mathlib

/-!
# Verification of the swagger-to-sdk event reconciliation engine

Shallow embedding of the reconciliation core of `swaggertosdk/restapi/github.py`
and `swaggertosdk/restapi/github_handler.py`: webhook payload model, branch
naming (`SdkPRModel.from_pr_webhook`), the open/close/sync reconciliation flows
(`rest_pull_open`, `rest_pull_close`, `rest_pull_sync`, `rest_handle_action`),
the bounded work queue (`_QUEUE = Queue(64)` with the blocking `put` used by
`rest_pull_request`) and the single consumer loop (`consume`).

Side effects against the GitHub hosting service are modelled as explicit state
passing over a `World` record; network reads performed by the code (such as
`github_con.get_repo(origin_repo).owner.login`) are modelled as oracle
functions passed in the environment, so that dependence on them is visible.
-/

namespace SwaggerToSdk

/-- The `pull_request` sub-object of a GitHub PR webhook payload, restricted to
the fields read by the reconciliation engine:
`pull_request.head.repo.full_name`, `pull_request.head.ref`,
`pull_request.base.ref`, `pull_request.title`, `pull_request.merged`. -/
structure PullRequestPayload where
  headRepoFullName : String
  headRef : String
  baseRef : String
  title : String
  merged : Bool
  deriving Repr, DecidableEq

/-- A GitHub PR webhook body, restricted to the fields read by
`rest_handle_action` and the three per-action handlers:
`action`, `number`, `repository.full_name`, `before`, `after`,
and the `pull_request` object. -/
structure WebhookBody where
  action : String
  number : Nat
  repositoryFullName : String
  before : String
  after : String
  pullRequest : PullRequestPayload
  deriving Repr, DecidableEq

/-- `class SdkPRModel` (github.py:283-286): the computed head/base branch
names in the SDK repo. -/
structure SdkPRModel where
  head_branch_name : String
  base_branch_name : String
  deriving Repr, DecidableEq

/-- `SdkPRModel.from_pr_webhook` (github.py:288-312).

`getRepoOwnerLogin` is the network oracle standing for
`github_con.get_repo(full_name).owner.login`, the one GitHub read the method
performs (only on the fork path).  `restapiFullName` is
`restapi_repo.full_name`, `sdkDefaultBase` the `sdk_default_base` argument. -/
def fromPrWebhook (getRepoOwnerLogin : String → String) (body : WebhookBody)
    (restapiFullName : String) (sdkDefaultBase : String) : SdkPRModel :=
  let origin_repo := body.pullRequest.headRepoFullName
  let dest_branch := body.pullRequest.headRef
  let sdk_dest_branch :=
    if origin_repo ≠ restapiFullName then
      -- This PR comes from a fork: the code queries GitHub for the fork
      -- repo object and reads its owner login.
      let fork_owner := getRepoOwnerLogin origin_repo
      let subbranch_name_part := fork_owner ++ "_" ++ dest_branch
      "restapi_auto_" ++ subbranch_name_part
    else
      "restapi_auto_" ++ dest_branch
  let rest_basebranch := body.pullRequest.baseRef
  let sdk_base :=
    if rest_basebranch = "master" then sdkDefaultBase
    else "restapi_auto_" ++ rest_basebranch
  { head_branch_name := sdk_dest_branch, base_branch_name := sdk_base }

/-! ## The hosting-service state and its operations -/

/-- A pull request in the SDK target repo, with the fields the engine reads or
writes: number, `head` (as the `owner:branch` filter string), `base`, title,
body, open/closed state, labels, and the `mergeable` flag read at
github.py:350. -/
structure SdkPr where
  number : Nat
  head : String
  base : String
  title : String
  bodyText : String
  state : String
  labels : List String
  mergeableFlag : Bool
  deriving Repr, DecidableEq

/-- The service-assigned `html_url` of a PR, modelled from its number. -/
def SdkPr.htmlUrl (p : SdkPr) : String :=
  "https://github.com/pull/" ++ toString p.number

/-- `SwaggerToSdkLabels.merged.value[0]` (github.py:264). -/
def mergedLabel : String := "RestPRMerged"
/-- `SwaggerToSdkLabels.refused.value[0]` (github.py:265). -/
def refusedLabel : String := "RestPRRefused"
/-- `SwaggerToSdkLabels.in_progress.value[0]` (github.py:266). -/
def inProgressLabel : String := "RestPRInProgress"
/-- `SwaggerToSdkLabels.service_pr.value[0]` (github.py:267). -/
def servicePrLabel : String := "ServicePR"

/-- The observable state of one reconciliation run: the target repo's PR list
plus effect logs — dashboard comments posted on the source PR, branches pushed,
generator runs, commits made, PR-list lookups issued, and PR numbers squash-
merged by the bot. -/
structure World where
  prs : List SdkPr
  nextPrNumber : Nat
  comments : List String
  pushedBranches : List String
  generations : List String
  commits : List String
  prLookups : List (String × String)
  mergedPrNumbers : List Nat
  deriving Repr, DecidableEq

/-- `DashboardCommentableObject.create_comment`: comments accumulate on the
source PR's thread. -/
def World.dashComment (w : World) (msg : String) : World :=
  { w with comments := w.comments ++ [msg] }

/-- Record one `repo.get_pulls(head=..., base=...)` call. -/
def World.logLookup (w : World) (head base : String) : World :=
  { w with prLookups := w.prLookups ++ [(head, base)] }

/-- `issue.add_to_labels(label)`: adding an already-present label is a no-op on
GitHub. -/
def addToLabels (lab : String) (p : SdkPr) : SdkPr :=
  if lab ∈ p.labels then p else { p with labels := p.labels ++ [lab] }

/-- `safe_remove_label` (github.py:275-281): remove a label, does not fail if
the label was not there. -/
def removeFromLabels (lab : String) (p : SdkPr) : SdkPr :=
  { p with labels := p.labels.filter (fun l => l ≠ lab) }

/-- `pr.edit(state="closed")` / the state change a merge performs. -/
def closeState (p : SdkPr) : SdkPr := { p with state := "closed" }

/-- Apply a mutation to the PR(s) with the given number (the engine addresses
PRs through `repo.get_issue(number)`). -/
def World.mapPr (w : World) (n : Nat) (f : SdkPr → SdkPr) : World :=
  { w with prs := w.prs.map (fun p => if p.number = n then f p else p) }

/-- Look up a PR by number, as `repo.get_issue(number)` does. -/
def World.findPr (w : World) (n : Nat) : Option SdkPr :=
  w.prs.find? (fun p => p.number == n)

/-- `sdk_pr_target_repo.get_pulls(head=..., base=...)`: the GitHub list-pulls
API filters on the exact head and base and defaults to open PRs. -/
def findPulls (w : World) (head base : String) : List SdkPr :=
  w.prs.filter (fun p => p.head = head && p.base = base && p.state = "open")

/-- Modelled from the spec: `get_or_create_pull` is defined in
`swaggertosdk/github_tools.py`, which is absent from the provided sources (only
its import and call sites are present). Per the spec — "look up an existing
pull request by exact `(owner:head, base)` pair. If found, this is effectively
a fast-forward update; if not found, create one" (§4.3), with collaborators
`find_pull_request(head, base)` / `create_pull_request(title, body, head, base)`
(§6) — it returns the existing open PR for the exact pair when there is one and
creates a fresh PR only otherwise. The lookup is recorded in `prLookups`. -/
def getOrCreatePull (w : World) (title bodyText head base : String) : SdkPr × World :=
  let w := w.logLookup head base
  match findPulls w head base with
  | p :: _ => (p, w)
  | [] =>
    let p : SdkPr := { number := w.nextPrNumber, head := head, base := base,
                       title := title, bodyText := bodyText, state := "open",
                       labels := [], mergeableFlag := true }
    (p, { w with prs := w.prs ++ [p], nextPrNumber := w.nextPrNumber + 1 })

/-- `generate_sdk_from_git_object` (github_handler.py:244-330), observed at the
level of its effects on the SDK repo: the generator run is recorded in
`generations`; `do_commit` produces a commit exactly when generation left the
working tree different from HEAD (`treeDirty` — `do_commit` returns falsy when
`repo.git.diff(staged=True)` is empty, SwaggerToSdkCore.py:109-122); on a
commit, each base branch and then the head branch are pushed and a commit URL
is returned (github_handler.py:326-330); with no diff nothing is committed or
pushed and `None` is returned. -/
def generateSdkFromGitObject (w : World) (treeDirty : Bool) (commitSha : String)
    (branchName : String) (sdkGitId : String) (baseBranchNames : List String) :
    Option String × World :=
  let w := { w with generations := w.generations ++ [branchName] }
  if treeDirty then
    let w := { w with commits := w.commits ++ [commitSha],
                      pushedBranches := w.pushedBranches ++ baseBranchNames ++ [branchName] }
    (some ("https://github.com/" ++ sdkGitId ++ "/commit/" ++ commitSha), w)
  else (none, w)

/-- The fixed configuration and external-world inputs of one reconciliation
pass: the GitHub owner-login oracle (`github_con.get_repo(x).owner.login`), the
spec repo's full name, the SDK target repo's owner login / full name, the
`sdkbase` and `repotag` query parameters, whether the generator leaves the tree
dirty, the resulting commit sha, and the source PR's `html_url`. -/
structure Env where
  getRepoOwnerLogin : String → String
  restapiFullName : String
  sdkOwnerLogin : String
  sdkFullName : String
  sdkDefaultBase : String
  sdkTag : String
  treeDirty : Bool
  commitSha : String
  restPrHtmlUrl : String

/-! ## The reconciliation flows -/

/-- The branch plan `rest_pull_open` computes (github.py:179-226): the
`SdkPRModel`; `sdk_checkout_bases`, seeded `[]` when the REST base branch is
`master` and `[sdk_base]` otherwise (line 188); `context_branch`, computed
whenever exactly one context tag resolved and inserted at index 0 of the
checkout list (lines 189-192); the reset of `context_branch` to `None` on the
non-fork path (lines 216-217); and the PR base `context_branch or sdk_base`
(line 225). -/
structure OpenPlan where
  model : SdkPRModel
  ctxBranchComputed : Option String
  checkoutBases : List String
  isFork : Bool
  ctxBranch : Option String
  prBase : String
  deriving Repr, DecidableEq

/-- Compute the `OpenPlan` of `rest_pull_open` for an event. -/
def openPlan (env : Env) (body : WebhookBody) (contextTags : List String) : OpenPlan :=
  let model := fromPrWebhook env.getRepoOwnerLogin body env.restapiFullName env.sdkDefaultBase
  let bases0 : List String :=
    if body.pullRequest.baseRef = "master" then [] else [model.base_branch_name]
  let ctx0 : Option String :=
    if contextTags.length = 1 then some ("restapi_auto_" ++ contextTags.headD ("")) else none
  let bases := match ctx0 with
    | some c => c :: bases0
    | none => bases0
  let isFork := body.pullRequest.headRepoFullName ≠ env.restapiFullName
  let ctx := if isFork then ctx0 else none
  { model := model, ctxBranchComputed := ctx0, checkoutBases := bases,
    isFork := isFork, ctxBranch := ctx,
    prBase := ctx.getD model.base_branch_name }

/-- `create_context_pr` (github.py:242-261): ensure the long-lived service PR
from the context branch into `sdk_base` exists and carries the `ServicePR`
label. The source swallows failures of this step; the successful path is
modelled. -/
def createContextPr (env : Env) (contextTags : List String) (sdkBase : String)
    (w : World) : World :=
  let context_branch := "restapi_auto_" ++ contextTags.headD ("")
  let res := getOrCreatePull w
      ("[AutoPR] " ++ String.intercalate ("/") contextTags)
      ("Created to accumulate context: " ++ contextTags.headD (""))
      (env.sdkOwnerLogin ++ ":" ++ context_branch)
      sdkBase
  res.2.mapPr res.1.number (addToLabels servicePrLabel)

/-- `rest_pull_open` (github.py:177-240). For a fork event, generation runs
first against the planned checkout bases; a `None` commit URL (generation left
no diff) ends the pass with the "no generation" comment, before any PR lookup
or creation (lines 211-215). Otherwise — and directly for non-fork events —
the target PR is looked up or created (`get_or_create_pull`, lines 220-226),
announced in a comment, labelled `RestPRInProgress` with `RestPRRefused` and
`RestPRMerged` removed, and, when a context branch is in play, the service PR
is ensured. -/
def restPullOpen (env : Env) (body : WebhookBody) (contextTags : List String)
    (w : World) : World :=
  let plan := openPlan env body contextTags
  let afterGen : World → World := fun w =>
    let (github_pr, w) := getOrCreatePull w
        ("[AutoPR " ++ String.intercalate ("/") contextTags ++ "] " ++ body.pullRequest.title)
        ("Created to sync " ++ env.restPrHtmlUrl)
        (env.sdkOwnerLogin ++ ":" ++ plan.model.head_branch_name)
        plan.prBase
    let w := w.dashComment ("A PR has been created for you:\n" ++ github_pr.htmlUrl)
    let w := w.mapPr github_pr.number (addToLabels inProgressLabel)
    let w := w.mapPr github_pr.number (removeFromLabels refusedLabel)
    let w := w.mapPr github_pr.number (removeFromLabels mergedLabel)
    if plan.ctxBranch.isSome then
      createContextPr env contextTags plan.model.base_branch_name w
    else w
  if plan.isFork then
    let (commit_url, w) := generateSdkFromGitObject w env.treeDirty env.commitSha
        plan.model.head_branch_name env.sdkFullName plan.checkoutBases
    match commit_url with
    | some url => afterGen (w.dashComment ("Did a commit to " ++ env.sdkTag ++ ":\n" ++ url))
    | none =>
        w.dashComment ("This commit was treated and no generation was made for " ++ env.sdkTag)
  else
    afterGen w

/-- The `context_branch` computed by the close and sync flows
(github.py:322-324, 376-378): set exactly when one context tag resolved. -/
def closeContextBranch (contextTags : List String) : Option String :=
  if contextTags.length = 1 then some ("restapi_auto_" ++ contextTags.headD ("")) else none

/-- The `head` filter `rest_pull_close` looks up:
`sdk_pr_target_repo.owner.login + ":" + sdk_pr_model.head_branch_name`
(github.py:327). -/
def closeHead (env : Env) (body : WebhookBody) : String :=
  env.sdkOwnerLogin ++ ":" ++
    (fromPrWebhook env.getRepoOwnerLogin body env.restapiFullName env.sdkDefaultBase).head_branch_name

/-- The `base` filter `rest_pull_close` looks up:
`context_branch or sdk_pr_model.base_branch_name` (github.py:328, 336). -/
def closeLookupBase (env : Env) (body : WebhookBody) (contextTags : List String) : String :=
  (closeContextBranch contextTags).getD
    (fromPrWebhook env.getRepoOwnerLogin body env.restapiFullName env.sdkDefaultBase).base_branch_name

/-- The unique-match branch of `rest_pull_close` (github.py:343-359): drop
`RestPRInProgress`; on a merged source PR add `RestPRMerged` and, when a
context branch exists and the PR is mergeable, squash-merge it; on a refused
source PR add `RestPRRefused` and close the PR; finally, when a context branch
exists, ensure the service PR. -/
def closeSinglePr (env : Env) (body : WebhookBody) (contextTags : List String)
    (sdk_base : String) (sdk_pr : SdkPr) (w : World) : World :=
  let context_branch := closeContextBranch contextTags
  let w := w.mapPr sdk_pr.number (removeFromLabels inProgressLabel)
  let w :=
    if body.pullRequest.merged then
      let w := w.mapPr sdk_pr.number (addToLabels mergedLabel)
      if context_branch.isSome && sdk_pr.mergeableFlag then
        let w := w.mapPr sdk_pr.number closeState
        { w with mergedPrNumbers := w.mergedPrNumbers ++ [sdk_pr.number] }
      else w
    else
      let w := w.mapPr sdk_pr.number (addToLabels refusedLabel)
      w.mapPr sdk_pr.number closeState
  if context_branch.isSome then createContextPr env contextTags sdk_base w else w

/-- `rest_pull_close` (github.py:314-364). Look up the target PR by
`(owner:head, context_branch or sdk_base)`; when nothing is found, run the full
open flow and look again; if the PR is still missing, post the failure comment;
with a unique match, mirror the source PR's outcome onto its labels
(`closeSinglePr`); with several matches, only log. -/
def restPullClose (env : Env) (body : WebhookBody) (contextTags : List String)
    (w : World) : World :=
  let model := fromPrWebhook env.getRepoOwnerLogin body env.restapiFullName env.sdkDefaultBase
  let sdk_base := model.base_branch_name
  let head := closeHead env body
  let w := w.logLookup head (closeLookupBase env body contextTags)
  let sdk_prs := findPulls w head (closeLookupBase env body contextTags)
  let step : List SdkPr × World :=
    if sdk_prs.isEmpty then
      let w := restPullOpen env body contextTags w
      let w := w.logLookup head (closeLookupBase env body contextTags)
      (findPulls w head (closeLookupBase env body contextTags), w)
    else (sdk_prs, w)
  match step with
  | ([], w) =>
      w.dashComment ("Was unable to create SDK " ++ env.sdkTag ++ " PR for this closed PR.")
  | ([sdk_pr], w) => closeSinglePr env body contextTags sdk_base sdk_pr w
  | (_, w) => w

/-- `rest_pull_sync` (github.py:366-408): ignore same-commit syncs and non-fork
syncs; otherwise look up the target PR, falling back to the open flow when it
is missing; when present, regenerate onto the fork head branch and re-post the
existing PR's URL. -/
def restPullSync (env : Env) (body : WebhookBody) (contextTags : List String)
    (w : World) : World :=
  if body.before = body.after then w
  else if body.pullRequest.headRepoFullName = env.restapiFullName then w
  else
    let context_branch : Option String :=
      if contextTags.length = 1 then some ("restapi_auto_" ++ contextTags.headD ("")) else none
    let model := fromPrWebhook env.getRepoOwnerLogin body env.restapiFullName env.sdkDefaultBase
    let head := env.sdkOwnerLogin ++ ":" ++ model.head_branch_name
    let w' := w.logLookup head (context_branch.getD model.base_branch_name)
    match findPulls w' head (context_branch.getD model.base_branch_name) with
    | [] => restPullOpen env body contextTags w'
    | sdk_pr :: _ =>
      let fork_owner := env.getRepoOwnerLogin body.pullRequest.headRepoFullName
      let subbranch_name_part := fork_owner ++ "_" ++ body.pullRequest.headRef
      let (_, w') := generateSdkFromGitObject w' env.treeDirty env.commitSha
          ("restapi_auto_" ++ subbranch_name_part) env.sdkFullName []
      w'.dashComment ("A PR has been created for you:\n" ++ sdk_pr.htmlUrl)

/-- `rest_handle_action` (github.py:142-175): the context-tag gate — zero tags
or more than `context_tags_limit = 3` tags post a terminal comment and return —
followed by the dispatch on the webhook `action`. -/
def restHandleAction (env : Env) (body : WebhookBody) (contextTags : List String)
    (w : World) : World :=
  if contextTags.length = 0 then
    w.dashComment ("Unable to detect any generation context from this PR.")
  else if contextTags.length > 3 then
    w.dashComment ("This PR contains more than 3 context, SDK generation is not enabled. Contexts found:\n"
      ++ String.intercalate ("\n") (contextTags.map (fun ctxt => "- " ++ ctxt)))
  else if body.action = "opened" ∨ body.action = "reopened" then
    restPullOpen env body contextTags w
  else if body.action = "closed" then
    restPullClose env body contextTags w
  else if body.action = "synchronize" then
    restPullSync env body contextTags w
  else w

/-! ## The work queue and the single consumer thread -/

/-- A work-queue item, `(body, sdkid, sdkbase, sdk_tag)` as enqueued at
github.py:137. -/
structure QueueItem where
  body : WebhookBody
  sdkid : String
  sdkbase : String
  sdkTag : String
  deriving Repr, DecidableEq

/-- `_QUEUE = Queue(64)` (github.py:34): the pending items in arrival order,
plus the fixed capacity. -/
structure WorkQueue where
  items : List QueueItem
  capacity : Nat
  deriving Repr, DecidableEq

/-- What a call of `Queue.put(item)` (blocking mode, the default, as used at
github.py:137) does at the moment it is issued: when the queue has free
capacity the item is appended and the call returns, and `rest_pull_request`
answers with the new queue size (`_QUEUE.qsize()`, github.py:140); when the
queue is full the call does not return — the calling webhook thread blocks
until a consumer frees a slot. No exception is raised and no item is
dropped in either case. -/
inductive PutOutcome where
  | returned (newItems : List QueueItem) (reportedSize : Nat)
  | blocksUntilSpace
  deriving Repr, DecidableEq

/-- `Queue.put` with `block=True` on the bounded `_QUEUE`. -/
def queuePut (q : WorkQueue) (item : QueueItem) : PutOutcome :=
  if q.items.length < q.capacity then
    .returned (q.items ++ [item]) (q.items.length + 1)
  else
    .blocksUntilSpace

/-- The enqueue performed by `rest_pull_request` (github.py:129-140):
`_QUEUE.put((body, sdkid, sdkbase, sdk_tag))` followed by a response carrying
`_QUEUE.qsize()`. -/
def restPullRequestEnqueue (q : WorkQueue) (item : QueueItem) : PutOutcome :=
  queuePut q item

/-- One observable event of the worker thread: a reconciliation pass
(`rest_handle_action` call, github.py:417) starting or finishing for a
dequeued item. -/
inductive PassEvent where
  | start (item : QueueItem)
  | finish (item : QueueItem)
  deriving Repr, DecidableEq

/-- `consume` (github.py:410-420): the single worker thread
(`_WORKER_THREAD`, github.py:422-425) loops forever, popping one item at a
time and running `rest_handle_action` on it synchronously to completion
(exceptions are caught and logged, line 418-419, so the pass always finishes)
before popping the next. Its observable trace over a queue content is
therefore `start x₀, finish x₀, start x₁, finish x₁, …` in arrival order. -/
def consumeTrace : List QueueItem → List PassEvent
  | [] => []
  | x :: xs => .start x :: .finish x :: consumeTrace xs

/-- The number of `start` events in a trace. -/
def startCount (tr : List PassEvent) : Nat :=
  (tr.filter (fun e => match e with | .start _ => true | .finish _ => false)).length

/-- The number of `finish` events in a trace. -/
def finishCount (tr : List PassEvent) : Nat :=
  (tr.filter (fun e => match e with | .start _ => false | .finish _ => true)).length

/-! ## Concrete fixtures -/

/-- A PR payload coming from a fork (`head.repo.full_name` differs from the
spec repo), targeting the spec repo's `master`. -/
def forkPayload : PullRequestPayload :=
  { headRepoFullName := "alice/azure-rest-api-specs", headRef := "my-feature",
    baseRef := "master", title := "Add DNS API", merged := false }

/-- A fork PR `opened` webhook body with PR number 42. -/
def bodyFork : WebhookBody :=
  { action := "opened", number := 42,
    repositoryFullName := "Azure/azure-rest-api-specs",
    before := "1111111", after := "2222222", pullRequest := forkPayload }

/-- A fork PR payload whose base ref is a non-trunk spec branch. -/
def forkFeaturePayload : PullRequestPayload :=
  { headRepoFullName := "alice/azure-rest-api-specs", headRef := "my-feature",
    baseRef := "featurebranch", title := "Add DNS API", merged := false }

/-- A fork PR `opened` webhook body whose base is not the spec trunk. -/
def bodyForkFeature : WebhookBody :=
  { action := "opened", number := 43,
    repositoryFullName := "Azure/azure-rest-api-specs",
    before := "1111111", after := "2222222", pullRequest := forkFeaturePayload }

/-- A non-fork PR payload whose head ref happens to be the string `42`. -/
def directPayload42 : PullRequestPayload :=
  { headRepoFullName := "Azure/azure-rest-api-specs", headRef := "42",
    baseRef := "master", title := "Branch named 42", merged := false }

/-- A non-fork PR `opened` webhook body whose head ref is `42`. -/
def bodyDirect42 : WebhookBody :=
  { action := "opened", number := 7,
    repositoryFullName := "Azure/azure-rest-api-specs",
    before := "3333333", after := "4444444", pullRequest := directPayload42 }

/-- A concrete environment: the owner-login oracle answers `alice` for the
fork repo and `Azure` otherwise, consistent with full names on the real
service. -/
def envA : Env :=
  { getRepoOwnerLogin := fun s =>
      if s = "alice/azure-rest-api-specs" then "alice" else "Azure",
    restapiFullName := "Azure/azure-rest-api-specs",
    sdkOwnerLogin := "Azure", sdkFullName := "Azure/azure-sdk-for-python",
    sdkDefaultBase := "master", sdkTag := "python",
    treeDirty := true, commitSha := "deadbee",
    restPrHtmlUrl := "https://github.com/Azure/azure-rest-api-specs/pull/42" }

/-- An empty hosting-service state. -/
def emptyWorld : World :=
  { prs := [], nextPrNumber := 1, comments := [], pushedBranches := [],
    generations := [], commits := [], prLookups := [], mergedPrNumbers := [] }

/-! ## Helper lemmas -/

/-- Left cancellation for string append. -/
theorem string_append_left_cancel {p a b : String} (h : p ++ a = p ++ b) : a = b := by
  have hd := congrArg String.data h
  rw [String.data_append, String.data_append] at hd
  exact String.ext (List.append_cancel_left hd)

/-- A string of the form `owner ++ "_" ++ branch` always contains an
underscore, so it can never be the digit string `42`. -/
theorem owner_branch_ne_42 (o h : String) : o ++ "_" ++ h ≠ "42" := by
  intro heq
  have hd := congrArg String.data heq
  rw [String.data_append, String.data_append] at hd
  have hmem : '_' ∈ ("42" : String).data := by
    rw [← hd]; simp
  simp [String.data] at hmem

/-! ## Claims -/

/-- Claim C3, counterexample. The claim says `SdkPRModel.from_pr_webhook`
performs no I/O, so its output could depend only on the event and the
configuration. In the source (github.py:293-296), for a fork event the method
calls `github_con.get_repo(origin_repo)` over the network and reads
`.owner.login`; with the same webhook body and configuration but two different
states of that network oracle, the computed head branch names differ. -/
theorem fromPrWebhook_fork_reads_network :
    fromPrWebhook (fun _ => "alice") bodyFork "Azure/azure-rest-api-specs" "master" ≠
      fromPrWebhook (fun _ => "bob") bodyFork "Azure/azure-rest-api-specs" "master" := by
  decide

/-- Claim C3 (amended): for a fixed webhook event, fallback base and a fixed
state of the GitHub owner-login oracle, `SdkPRModel.from_pr_webhook` is
deterministic — two invocations yield byte-identical head and base branch
names; and for a non-fork event the computation reads nothing from the oracle,
so it is I/O-free. (For fork events the head name does depend on the
`get_repo(...).owner.login` network read, as the counterexample shows.) -/
theorem fromPrWebhook_deterministic (g : String → String) (body : WebhookBody)
    (restapiFullName sdkDefaultBase : String)
    (hnonfork : body.pullRequest.headRepoFullName = restapiFullName) :
    fromPrWebhook g body restapiFullName sdkDefaultBase =
      fromPrWebhook g body restapiFullName sdkDefaultBase ∧
    ∀ g', fromPrWebhook g body restapiFullName sdkDefaultBase =
      fromPrWebhook g' body restapiFullName sdkDefaultBase := by
  refine ⟨rfl, fun g' => ?_⟩
  simp [fromPrWebhook, hnonfork]

/-- Witness for C3's amended theorem at a concrete non-fork event. -/
theorem fromPrWebhook_deterministic_witness :
    bodyDirect42.pullRequest.headRepoFullName = "Azure/azure-rest-api-specs" ∧
    ∀ g', fromPrWebhook (fun _ => "alice") bodyDirect42 "Azure/azure-rest-api-specs" "master" =
      fromPrWebhook g' bodyDirect42 "Azure/azure-rest-api-specs" "master" :=
  ⟨by decide,
   (fromPrWebhook_deterministic (fun _ => "alice") bodyDirect42
      "Azure/azure-rest-api-specs" "master" (by decide)).2⟩

/-- Claim C4: for a fork event the head branch is the template applied to the
event's stable fork identifier — in the source, `fork_owner + "_" + head_ref`
(github.py:294-297) — while for a non-fork event it is the template applied to
the head ref alone (github.py:299); consequently any fork event (in particular
one with PR number 42) gets a head branch distinct from that of any non-fork
event whose head ref is the string `42`, because the fork identifier always
contains an underscore. -/
theorem fork_head_naming_collision_free (g : String → String)
    (body bodyNF : WebhookBody) (restapiFullName sdkDefaultBase : String)
    (hfork : body.pullRequest.headRepoFullName ≠ restapiFullName)
    (_hnum : body.number = 42)
    (hnf : bodyNF.pullRequest.headRepoFullName = restapiFullName)
    (hnfref : bodyNF.pullRequest.headRef = "42") :
    (fromPrWebhook g body restapiFullName sdkDefaultBase).head_branch_name =
      "restapi_auto_" ++ (g body.pullRequest.headRepoFullName ++ "_" ++ body.pullRequest.headRef) ∧
    (fromPrWebhook g bodyNF restapiFullName sdkDefaultBase).head_branch_name =
      "restapi_auto_" ++ bodyNF.pullRequest.headRef ∧
    (fromPrWebhook g body restapiFullName sdkDefaultBase).head_branch_name ≠
      (fromPrWebhook g bodyNF restapiFullName sdkDefaultBase).head_branch_name := by
  have h1 : (fromPrWebhook g body restapiFullName sdkDefaultBase).head_branch_name =
      "restapi_auto_" ++ (g body.pullRequest.headRepoFullName ++ "_" ++ body.pullRequest.headRef) := by
    simp [fromPrWebhook, hfork]
  have h2 : (fromPrWebhook g bodyNF restapiFullName sdkDefaultBase).head_branch_name =
      "restapi_auto_" ++ "42" := by
    simp [fromPrWebhook, hnf, hnfref]
  refine ⟨h1, by simp [fromPrWebhook, hnf], ?_⟩
  rw [h1, h2]
  intro heq
  exact owner_branch_ne_42 _ _ (string_append_left_cancel heq)

/-- Witness for C4 at the concrete fork event number 42 against the concrete
non-fork event with head ref `42`. -/
theorem fork_head_naming_collision_free_witness :
    bodyFork.pullRequest.headRepoFullName ≠ "Azure/azure-rest-api-specs" ∧
    bodyFork.number = 42 ∧
    bodyDirect42.pullRequest.headRepoFullName = "Azure/azure-rest-api-specs" ∧
    bodyDirect42.pullRequest.headRef = "42" ∧
    (fromPrWebhook envA.getRepoOwnerLogin bodyFork "Azure/azure-rest-api-specs" "master").head_branch_name ≠
      (fromPrWebhook envA.getRepoOwnerLogin bodyDirect42 "Azure/azure-rest-api-specs" "master").head_branch_name :=
  ⟨by decide, rfl, by decide, rfl,
   (fork_head_naming_collision_free envA.getRepoOwnerLogin bodyFork bodyDirect42
      "Azure/azure-rest-api-specs" "master" (by decide) rfl (by decide) rfl).2.2⟩

/-- Claim C5, counterexample. The claim says a context branch is computed
exactly when the event resolved to exactly one context tag AND the event is a
fork AND its base ref is the spec trunk. In the source (github.py:190-192) the
only condition is `len(context_tags) == 1`: for a fork event with one tag whose
base ref is `featurebranch` (not the trunk), the engine still computes
`restapi_auto_dns` and inserts it into the checkout bases, refuting the
claimed equivalence. -/
theorem context_branch_not_gated_on_trunk :
    ¬ (∀ (env : Env) (body : WebhookBody) (tags : List String),
        (openPlan env body tags).ctxBranchComputed.isSome ↔
          (tags.length = 1 ∧
           body.pullRequest.headRepoFullName ≠ env.restapiFullName ∧
           body.pullRequest.baseRef = "master")) := by
  intro hclaim
  have h := (hclaim envA bodyForkFeature ["dns"]).mp (by decide)
  have hbase : bodyForkFeature.pullRequest.baseRef = "master" := h.2.2
  simp [bodyForkFeature, forkFeaturePayload] at hbase

/-- Claim C5 (amended): the context branch is computed exactly when the event
resolved to exactly one context tag — regardless of fork status and base ref
(github.py:190-192). When computed it is `restapi_auto_<tag>`, inserted at
index 0 of the checkout-base list, ahead of the rule-2 base; it survives as
the PR base only for fork events (github.py:216-217, 225); and when the
event's base ref is the trunk the checkout list is exactly the context branch,
so checkouts create it from the rule-2 base (the fallback branch the clone
starts on) before the head branch is created from it. -/
theorem context_branch_single_tag (env : Env) (body : WebhookBody) (tags : List String) :
    ((openPlan env body tags).ctxBranchComputed.isSome ↔ tags.length = 1) ∧
    (tags.length = 1 →
      (openPlan env body tags).ctxBranchComputed = some ("restapi_auto_" ++ tags.headD ("")) ∧
      (openPlan env body tags).checkoutBases =
        ("restapi_auto_" ++ tags.headD ("")) ::
          (if body.pullRequest.baseRef = "master" then []
           else [(openPlan env body tags).model.base_branch_name]) ∧
      ((openPlan env body tags).isFork = true →
        (openPlan env body tags).ctxBranch = some ("restapi_auto_" ++ tags.headD ("")) ∧
        (openPlan env body tags).prBase = "restapi_auto_" ++ tags.headD ("")) ∧
      ((openPlan env body tags).isFork = false →
        (openPlan env body tags).ctxBranch = none) ∧
      (body.pullRequest.baseRef = "master" →
        (openPlan env body tags).checkoutBases = ["restapi_auto_" ++ tags.headD ("")])) := by
  constructor
  · by_cases h : tags.length = 1 <;> simp [openPlan, h]
  · intro h
    refine ⟨by simp [openPlan, h], by simp [openPlan, h], ?_, ?_, ?_⟩
    · intro hf
      have hne : body.pullRequest.headRepoFullName ≠ env.restapiFullName := by
        simpa [openPlan] using hf
      simp [openPlan, h, hne]
    · intro hf
      have heq : body.pullRequest.headRepoFullName = env.restapiFullName := by
        simpa [openPlan] using hf
      simp [openPlan, h, heq]
    · intro hb
      simp [openPlan, h, hb]

/-- Witness for C5's amended theorem: the concrete fork event with one tag and
trunk base gets context branch `restapi_auto_dns`, alone in the checkout list
and used as the PR base. -/
theorem context_branch_single_tag_witness :
    (openPlan envA bodyFork ["dns"]).ctxBranchComputed = some ("restapi_auto_" ++ ("dns")) ∧
    (openPlan envA bodyFork ["dns"]).checkoutBases = ["restapi_auto_" ++ ("dns")] ∧
    (openPlan envA bodyFork ["dns"]).prBase = "restapi_auto_" ++ ("dns") := by
  have h := (context_branch_single_tag envA bodyFork ["dns"]).2 rfl
  exact ⟨h.1, h.2.2.2.2 (by decide), (h.2.2.1 (by decide)).2⟩

/-- Claim C6: with zero context tags, or more than the hardcoded
`context_tags_limit = 3` (github.py:157-166), `rest_handle_action` posts a
single terminal comment on the source event and does nothing else — no PR
change, no generation, no commit, no push, no PR lookup, and no retry (the
handler just returns); with 1 to 3 tags it proceeds to the per-action
handler. -/
theorem context_tag_gate (env : Env) (body : WebhookBody) (tags : List String)
    (w : World) :
    (tags.length = 0 ∨ 3 < tags.length →
      (restHandleAction env body tags w).prs = w.prs ∧
      (restHandleAction env body tags w).generations = w.generations ∧
      (restHandleAction env body tags w).commits = w.commits ∧
      (restHandleAction env body tags w).pushedBranches = w.pushedBranches ∧
      (restHandleAction env body tags w).prLookups = w.prLookups ∧
      ∃ msg, (restHandleAction env body tags w).comments = w.comments ++ [msg]) ∧
    (1 ≤ tags.length → tags.length ≤ 3 →
      (body.action = "opened" ∨ body.action = "reopened" →
        restHandleAction env body tags w = restPullOpen env body tags w) ∧
      (body.action = "closed" →
        restHandleAction env body tags w = restPullClose env body tags w) ∧
      (body.action = "synchronize" →
        restHandleAction env body tags w = restPullSync env body tags w)) := by
  constructor
  · rintro (h0 | h3)
    · simp [restHandleAction, h0, World.dashComment]
    · have h0' : tags.length ≠ 0 := by omega
      simp [restHandleAction, h0', h3, World.dashComment]
  · intro h1 h3
    have h0' : ¬ tags.length = 0 := by omega
    have h3' : ¬ 3 < tags.length := by omega
    refine ⟨fun ha => ?_, fun ha => ?_, fun ha => ?_⟩
    · simp [restHandleAction, h0', h3', ha]
    · simp [restHandleAction, h0', h3', ha]
    · simp [restHandleAction, h0', h3', ha]

/-- Witness for C6: with four distinct tags (limit 3) on the empty world, the
PR list, generation log, commit log, push log and lookup log are untouched and
exactly one comment is posted. -/
theorem context_tag_gate_witness :
    (3 < (["a", "b", "c", "d"] : List String).length) ∧
    (restHandleAction envA bodyFork ["a", "b", "c", "d"] emptyWorld).prs = emptyWorld.prs ∧
    (restHandleAction envA bodyFork ["a", "b", "c", "d"] emptyWorld).generations = emptyWorld.generations ∧
    (∃ msg, (restHandleAction envA bodyFork ["a", "b", "c", "d"] emptyWorld).comments =
      emptyWorld.comments ++ [msg]) := by
  have h := (context_tag_gate envA bodyFork ["a", "b", "c", "d"] emptyWorld).1
    (Or.inr (by decide))
  exact ⟨by decide, h.1, h.2.1, h.2.2.2.2.2⟩

/-- A concrete work-queue item. -/
def itemA : QueueItem :=
  { body := bodyFork, sdkid := "Azure/azure-sdk-for-python",
    sdkbase := "master", sdkTag := "python" }

/-- A second, distinct work-queue item. -/
def itemB : QueueItem :=
  { body := bodyDirect42, sdkid := "Azure/azure-sdk-for-python",
    sdkbase := "master", sdkTag := "python" }

/-- Claim C9, counterexample. The claim says the enqueue in
`rest_pull_request` is non-blocking and fails loudly if and only if the queue
is full. The source calls `_QUEUE.put(...)` (github.py:137) in its default
blocking mode on the bounded `Queue(64)`: on a full queue the call neither
returns a depth nor raises — the webhook thread blocks until a consumer frees
a slot. -/
theorem enqueue_blocks_when_full :
    restPullRequestEnqueue { items := List.replicate 64 itemA, capacity := 64 } itemB =
      PutOutcome.blocksUntilSpace := by
  rfl

/-- Claim C9 (amended): the enqueue of `rest_pull_request` never raises and
never drops an item: when the bounded queue (capacity 64) has free space the
item is appended and the webhook response reports the new queue depth
(`_QUEUE.qsize()`); when the queue is full the blocking `Queue.put` does not
return until space frees — backpressure by blocking the webhook thread, not by
failing loudly. -/
theorem enqueue_returns_depth_or_blocks (q : WorkQueue) (item : QueueItem) :
    (q.items.length < q.capacity →
      restPullRequestEnqueue q item =
        PutOutcome.returned (q.items ++ [item]) (q.items.length + 1)) ∧
    (q.capacity ≤ q.items.length →
      restPullRequestEnqueue q item = PutOutcome.blocksUntilSpace) := by
  constructor
  · intro h
    simp [restPullRequestEnqueue, queuePut, h]
  · intro h
    simp [restPullRequestEnqueue, queuePut, Nat.not_lt.mpr h]

/-- Witness for C9's amended theorem: putting into the empty queue returns at
once with depth 1 and the item appended. -/
theorem enqueue_returns_depth_or_blocks_witness :
    ((0 : Nat) < 64 ∧
      restPullRequestEnqueue { items := [], capacity := 64 } itemA =
        PutOutcome.returned [itemA] 1) :=
  ⟨by decide,
   (enqueue_returns_depth_or_blocks { items := [], capacity := 64 } itemA).1 (by decide)⟩

/-- In the worker trace, the pass for the `k`-th queued item starts at trace
position `2k`. -/
theorem consumeTrace_start_pos (xs : List QueueItem) (k : Nat) (hk : k < xs.length) :
    (consumeTrace xs)[2 * k]? = (xs[k]?).map PassEvent.start := by
  induction xs generalizing k with
  | nil => simp at hk
  | cons x xs ih =>
    cases k with
    | zero => simp [consumeTrace]
    | succ k =>
      have hk' : k < xs.length := by simpa using hk
      have h2 : 2 * (k + 1) = 2 * k + 1 + 1 := by ring
      rw [h2]
      simpa [consumeTrace] using ih k hk'

/-- In the worker trace, the pass for the `k`-th queued item finishes at trace
position `2k + 1`. -/
theorem consumeTrace_finish_pos (xs : List QueueItem) (k : Nat) (hk : k < xs.length) :
    (consumeTrace xs)[2 * k + 1]? = (xs[k]?).map PassEvent.finish := by
  induction xs generalizing k with
  | nil => simp at hk
  | cons x xs ih =>
    cases k with
    | zero => simp [consumeTrace]
    | succ k =>
      have hk' : k < xs.length := by simpa using hk
      have h2 : 2 * (k + 1) + 1 = 2 * k + 1 + 1 + 1 := by ring
      rw [h2]
      simpa [consumeTrace] using ih k hk'

/-- At every instant of the worker trace (every prefix), at most one
reconciliation pass has started and not finished. -/
theorem consumeTrace_at_most_one_active (xs : List QueueItem) :
    ∀ p, p <+: consumeTrace xs → startCount p ≤ finishCount p + 1 := by
  induction xs with
  | nil =>
    intro p hp
    rw [List.prefix_nil.mp hp]
    simp [startCount, finishCount]
  | cons x xs ih =>
    intro p hp
    obtain ⟨t, ht⟩ := hp
    cases p with
    | nil => simp [startCount, finishCount]
    | cons e p' =>
      simp only [consumeTrace, List.cons_append] at ht
      obtain ⟨he, ht2⟩ := List.cons_eq_cons.mp ht
      subst he
      cases p' with
      | nil => simp [startCount, finishCount]
      | cons e' p'' =>
        simp only [List.cons_append] at ht2
        obtain ⟨he', ht3⟩ := List.cons_eq_cons.mp ht2
        subst he'
        have hrec := ih p'' ⟨t, ht3⟩
        simp only [startCount, finishCount, List.filter] at hrec ⊢
        simpa using hrec

/-- Claim C1: the single consumer thread (`consume`, github.py:410-420, run by
the sole `_WORKER_THREAD`) processes work-queue items strictly FIFO — in the
trace, the pass for the `i`-th enqueued item finishes at position `2i + 1`,
strictly before position `2j` where the pass for any later `j`-th item starts
— and at every prefix of the trace at most one reconciliation pass is active,
since each `rest_handle_action` call runs to completion (exceptions caught at
github.py:418-419) before the next `_QUEUE.get()`. -/
theorem consume_fifo_serialized (xs : List QueueItem) (i j : Nat)
    (hij : i < j) (hj : j < xs.length) :
    (consumeTrace xs)[2 * i + 1]? = (xs[i]?).map PassEvent.finish ∧
    (consumeTrace xs)[2 * j]? = (xs[j]?).map PassEvent.start ∧
    2 * i + 1 < 2 * j ∧
    ∀ p, p <+: consumeTrace xs → startCount p ≤ finishCount p + 1 := by
  refine ⟨consumeTrace_finish_pos xs i (lt_trans hij hj),
          consumeTrace_start_pos xs j hj, by omega,
          consumeTrace_at_most_one_active xs⟩

/-- Witness for C1 on the concrete two-item queue `[itemA, itemB]`. -/
theorem consume_fifo_serialized_witness :
    (0 : Nat) < 1 ∧ 1 < ([itemA, itemB] : List QueueItem).length ∧
    (consumeTrace [itemA, itemB])[1]? = (([itemA, itemB] : List QueueItem)[0]?).map PassEvent.finish ∧
    (consumeTrace [itemA, itemB])[2]? = (([itemA, itemB] : List QueueItem)[1]?).map PassEvent.start ∧
    (2 * 0 + 1 : Nat) < 2 * 1 := by
  have h := consume_fifo_serialized [itemA, itemB] 0 1 (by decide) (by decide)
  exact ⟨by decide, by decide, h.1, h.2.1, h.2.2.1⟩

/-- Logging a PR lookup does not change the PR list, so the same pulls are
found before and after. -/
theorem findPulls_logLookup (w : World) (h b head base : String) :
    findPulls (w.logLookup h b) head base = findPulls w head base := rfl

/-- Two worlds with the same PR list yield the same pull lookups. -/
theorem findPulls_congr_prs (w w' : World) (h : w'.prs = w.prs) (head base : String) :
    findPulls w' head base = findPulls w head base := by
  simp [findPulls, h]

/-- Claim C2: ensuring a PR via `get_or_create_pull` is idempotent. When an
open PR for exactly `(head, base)` already exists (it heads the lookup
result), the call returns that PR and leaves the repo's PR list unchanged, and
so does a second call on the resulting state: both invocations return the same
PR and no second PR is ever created. -/
theorem getOrCreatePull_idempotent (w : World) (title bodyText head base : String)
    (p : SdkPr) (rest : List SdkPr)
    (hmatch : findPulls w head base = p :: rest) :
    (getOrCreatePull w title bodyText head base).1 = p ∧
    ((getOrCreatePull w title bodyText head base).2).prs = w.prs ∧
    (getOrCreatePull ((getOrCreatePull w title bodyText head base).2)
        title bodyText head base).1 = p ∧
    ((getOrCreatePull ((getOrCreatePull w title bodyText head base).2)
        title bodyText head base).2).prs = w.prs := by
  have e1 : getOrCreatePull w title bodyText head base = (p, w.logLookup head base) := by
    simp only [getOrCreatePull, findPulls_logLookup, hmatch]
  have e2 : getOrCreatePull (w.logLookup head base) title bodyText head base =
      (p, (w.logLookup head base).logLookup head base) := by
    simp only [getOrCreatePull, findPulls_logLookup, hmatch]
  rw [e1]
  exact ⟨rfl, rfl, by rw [e2], by rw [e2]; rfl⟩

/-- An existing SDK PR for the fork head branch. -/
def prA : SdkPr :=
  { number := 5, head := "Azure:restapi_auto_alice_my-feature", base := "master",
    title := "[AutoPR dns] Add DNS API", bodyText := "Created to sync",
    state := "open", labels := [], mergeableFlag := true }

/-- A world already holding `prA`. -/
def worldA : World := { emptyWorld with prs := [prA], nextPrNumber := 6 }

/-- Witness for C2 on the concrete world holding exactly `prA`. -/
theorem getOrCreatePull_idempotent_witness :
    findPulls worldA "Azure:restapi_auto_alice_my-feature" "master" = [prA] ∧
    (getOrCreatePull worldA "t2" "b2" "Azure:restapi_auto_alice_my-feature" "master").1 = prA ∧
    ((getOrCreatePull (getOrCreatePull worldA "t2" "b2"
        "Azure:restapi_auto_alice_my-feature" "master").2
        "t2" "b2" "Azure:restapi_auto_alice_my-feature" "master").2).prs = worldA.prs := by
  have h := getOrCreatePull_idempotent worldA "t2" "b2"
    "Azure:restapi_auto_alice_my-feature" "master" prA [] (by decide)
  exact ⟨by decide, h.1, h.2.2.2⟩

/-- The environment with a generator run that leaves the working tree
identical to HEAD. -/
def envClean : Env := { envA with treeDirty := false }

/-- The fork PR webhook body as a `synchronize` event. -/
def bodySync : WebhookBody := { bodyFork with action := "synchronize" }

/-- The SDK PR sitting on the context branch, as the sync flow looks it up. -/
def prCtx : SdkPr :=
  { number := 5, head := "Azure:restapi_auto_alice_my-feature",
    base := "restapi_auto_dns", title := "[AutoPR dns] Add DNS API",
    bodyText := "Created to sync", state := "open", labels := [inProgressLabel],
    mergeableFlag := true }

/-- A world already holding the context-branch SDK PR `prCtx`. -/
def worldB : World := { emptyWorld with prs := [prCtx], nextPrNumber := 6 }

/-- Claim C7, counterexample. The claim quantifies over every reconciliation
pass: in the `synchronize` flow (github.py:366-408), the PR lookup happens
before generation, and when generation then leaves the working tree identical
to HEAD the pass still ends by re-posting the existing PR's URL — not by
reporting that nothing was generated. Concretely: a sync pass with a clean
generator run performed a generation, yet its PR-lookup log grew and its
single comment is the "A PR has been created for you" message. -/
theorem no_diff_pass_still_looks_up_pr :
    envClean.treeDirty = false ∧
    (restHandleAction envClean bodySync ["dns"] worldB).generations ≠ worldB.generations ∧
    (restHandleAction envClean bodySync ["dns"] worldB).commits = worldB.commits ∧
    (restHandleAction envClean bodySync ["dns"] worldB).prLookups ≠ worldB.prLookups ∧
    (restHandleAction envClean bodySync ["dns"] worldB).comments =
      worldB.comments ++ ["A PR has been created for you:\n" ++ prCtx.htmlUrl] := by
  decide

/-- Claim C7 (amended): in the open reconciliation flow for a fork event,
when generation leaves the working tree identical to the branch's HEAD
(`do_commit` finds no staged diff), no commit is made, nothing is pushed, no
PR lookup or creation occurs, and the pass ends terminally with the
"no generation was made" comment (github.py:211-215, github_handler.py:325-330). -/
theorem open_no_diff_short_circuit (env : Env) (body : WebhookBody)
    (tags : List String) (w : World)
    (hfork : body.pullRequest.headRepoFullName ≠ env.restapiFullName)
    (hclean : env.treeDirty = false) :
    (restPullOpen env body tags w).commits = w.commits ∧
    (restPullOpen env body tags w).pushedBranches = w.pushedBranches ∧
    (restPullOpen env body tags w).prs = w.prs ∧
    (restPullOpen env body tags w).nextPrNumber = w.nextPrNumber ∧
    (restPullOpen env body tags w).prLookups = w.prLookups ∧
    (restPullOpen env body tags w).generations =
      w.generations ++ [(openPlan env body tags).model.head_branch_name] ∧
    (restPullOpen env body tags w).comments =
      w.comments ++ ["This commit was treated and no generation was made for " ++ env.sdkTag] := by
  have hplanfork : (openPlan env body tags).isFork = true := by
    simp [openPlan, hfork]
  simp [restPullOpen, hplanfork, generateSdkFromGitObject, hclean, World.dashComment]

/-- Witness for C7's amended theorem: the concrete fork open pass with a clean
generator run touches nothing but the generation log and the comment. -/
theorem open_no_diff_short_circuit_witness :
    bodyFork.pullRequest.headRepoFullName ≠ envClean.restapiFullName ∧
    envClean.treeDirty = false ∧
    (restPullOpen envClean bodyFork ["dns"] emptyWorld).prs = emptyWorld.prs ∧
    (restPullOpen envClean bodyFork ["dns"] emptyWorld).prLookups = emptyWorld.prLookups ∧
    (restPullOpen envClean bodyFork ["dns"] emptyWorld).pushedBranches = emptyWorld.pushedBranches := by
  have h := open_no_diff_short_circuit envClean bodyFork ["dns"] emptyWorld
    (by decide) rfl
  exact ⟨by decide, rfl, h.2.2.1, h.2.2.2.2.1, h.2.1⟩

/-- Label addition does not change a PR's number. -/
theorem addToLabels_number (lab : String) (p : SdkPr) :
    (addToLabels lab p).number = p.number := by
  unfold addToLabels; split <;> rfl

/-- Label removal does not change a PR's number. -/
theorem removeFromLabels_number (lab : String) (p : SdkPr) :
    (removeFromLabels lab p).number = p.number := rfl

/-- Closing does not change a PR's number. -/
theorem closeState_number (p : SdkPr) : (closeState p).number = p.number := rfl

/-- Label addition does not change a PR's state. -/
theorem addToLabels_state (lab : String) (p : SdkPr) :
    (addToLabels lab p).state = p.state := by
  unfold addToLabels; split <;> rfl

/-- Closing does not change a PR's labels. -/
theorem closeState_labels (p : SdkPr) : (closeState p).labels = p.labels := rfl

/-- The added label is present afterwards. -/
theorem mem_addToLabels_self (lab : String) (p : SdkPr) :
    lab ∈ (addToLabels lab p).labels := by
  unfold addToLabels; split
  · assumption
  · simp

/-- Labels survive the addition of another label. -/
theorem mem_addToLabels_of_mem (lab l : String) (p : SdkPr) (h : l ∈ p.labels) :
    l ∈ (addToLabels lab p).labels := by
  unfold addToLabels; split
  · exact h
  · simp [h]

/-- A label different from the one added stays absent. -/
theorem not_mem_addToLabels (lab l : String) (p : SdkPr) (h : l ∉ p.labels)
    (hne : l ≠ lab) : l ∉ (addToLabels lab p).labels := by
  unfold addToLabels; split
  · exact h
  · simp [h, hne]

/-- The removed label is absent afterwards (`safe_remove_label`). -/
theorem not_mem_removeFromLabels_self (lab : String) (p : SdkPr) :
    lab ∉ (removeFromLabels lab p).labels := by
  simp [removeFromLabels]

/-- `find?` commutes with a map that does not change the predicate's value. -/
theorem find?_map_pred (l : List SdkPr) (g : SdkPr → SdkPr) (pr : SdkPr → Bool)
    (hg : ∀ p, pr (g p) = pr p) :
    (l.map g).find? pr = (l.find? pr).map g := by
  induction l with
  | nil => rfl
  | cons x xs ih =>
    by_cases h : pr x
    · simp [List.find?, hg, h]
    · have hgx : pr (g x) = false := by rw [hg]; simpa using h
      have hx : pr x = false := by simpa using h
      simp [List.find?, hx, hgx, ih]

/-- `findPr` through `mapPr`, for a mutation that preserves PR numbers. -/
theorem findPr_mapPr (w : World) (m n : Nat) (f : SdkPr → SdkPr)
    (hf : ∀ p, (f p).number = p.number) :
    (w.mapPr m f).findPr n =
      (w.findPr n).map (fun p => if p.number = m then f p else p) := by
  unfold World.mapPr World.findPr
  exact find?_map_pred _ _ _ (fun p => by by_cases h : p.number = m <;> simp [h, hf])

/-- A found PR carries the looked-up number. -/
theorem findPr_number (w : World) (n : Nat) (q : SdkPr) (h : w.findPr n = some q) :
    q.number = n := by
  have := List.find?_some h
  simpa using this

/-- `findPr` through a number-targeted `mapPr` at the same number. -/
theorem findPr_mapPr_self (w : World) (n : Nat) (f : SdkPr → SdkPr)
    (hf : ∀ p, (f p).number = p.number) (q : SdkPr) (hq : w.findPr n = some q) :
    (w.mapPr n f).findPr n = some (f q) := by
  rw [findPr_mapPr w n n f hf, hq]
  have hqn : q.number = n := findPr_number w n q hq
  simp [hqn]

/-- `getOrCreatePull` never loses an existing PR: a PR found by number before
the call is found unchanged after it (creation only appends). -/
theorem getOrCreatePull_findPr (w : World) (t b h bs : String) (n : Nat)
    (q : SdkPr) (hq : w.findPr n = some q) :
    ((getOrCreatePull w t b h bs).2).findPr n = some q := by
  simp only [getOrCreatePull]
  split
  · exact hq
  · unfold World.findPr
    dsimp only
    rw [List.find?_append]
    have hq' : (w.logLookup h bs).prs.find? (fun p => p.number == n) = some q := hq
    rw [hq']
    rfl

/-- `create_context_pr` can only add the `ServicePR` label to the tracked PR:
any property preserved by that addition survives it. -/
theorem createContextPr_preserves (env : Env) (tags : List String) (sdkBase : String)
    (w : World) (n : Nat) (P : SdkPr → Prop)
    (hP : ∀ r, P r → P (addToLabels servicePrLabel r))
    (q : SdkPr) (hq : w.findPr n = some q) (hPq : P q) :
    ∃ q', (createContextPr env tags sdkBase w).findPr n = some q' ∧ P q' := by
  unfold createContextPr
  have hg := getOrCreatePull_findPr w
    ("[AutoPR] " ++ String.intercalate ("/") tags)
    ("Created to accumulate context: " ++ tags.headD (""))
    (env.sdkOwnerLogin ++ ":" ++ ("restapi_auto_" ++ tags.headD ("")))
    sdkBase n q hq
  rw [findPr_mapPr _ _ _ _ (fun r => addToLabels_number _ r), hg]
  simp only [Option.map_some']
  split
  · exact ⟨_, rfl, hP q hPq⟩
  · exact ⟨_, rfl, hPq⟩

/-- Under a unique first lookup match, `rest_pull_close` goes straight to the
single-PR branch. -/
theorem restPullClose_single (env : Env) (body : WebhookBody) (tags : List String)
    (w : World) (p : SdkPr)
    (hmatch : findPulls w (closeHead env body) (closeLookupBase env body tags) = [p]) :
    restPullClose env body tags w =
      closeSinglePr env body tags
        (fromPrWebhook env.getRepoOwnerLogin body env.restapiFullName
          env.sdkDefaultBase).base_branch_name
        p (w.logLookup (closeHead env body) (closeLookupBase env body tags)) := by
  simp only [restPullClose, findPulls_logLookup, hmatch, List.isEmpty_cons,
    Bool.false_eq_true, if_false]

/-- The single-PR branch of the close flow mirrors the source PR's outcome
onto the target PR's labels: merged sources leave `RestPRMerged` present and
`RestPRInProgress` absent; refused sources leave `RestPRRefused` present,
`RestPRInProgress` absent, and the PR closed. -/
theorem closeSinglePr_outcome (env : Env) (body : WebhookBody) (tags : List String)
    (sdk_base : String) (sdk_pr : SdkPr) (w : World)
    (q0 : SdkPr) (hq0 : w.findPr sdk_pr.number = some q0) :
    (body.pullRequest.merged = true →
      ∃ q, (closeSinglePr env body tags sdk_base sdk_pr w).findPr sdk_pr.number = some q ∧
        mergedLabel ∈ q.labels ∧ inProgressLabel ∉ q.labels) ∧
    (body.pullRequest.merged = false →
      ∃ q, (closeSinglePr env body tags sdk_base sdk_pr w).findPr sdk_pr.number = some q ∧
        refusedLabel ∈ q.labels ∧ inProgressLabel ∉ q.labels ∧ q.state = "closed") := by
  have hw1 := findPr_mapPr_self w sdk_pr.number (removeFromLabels inProgressLabel)
    (fun r => removeFromLabels_number _ r) q0 hq0
  constructor
  · intro hm
    have hw2 := findPr_mapPr_self _ sdk_pr.number (addToLabels mergedLabel)
      (fun r => addToLabels_number _ r) _ hw1
    have hval : mergedLabel ∈ (addToLabels mergedLabel
          (removeFromLabels inProgressLabel q0)).labels ∧
        inProgressLabel ∉ (addToLabels mergedLabel
          (removeFromLabels inProgressLabel q0)).labels :=
      ⟨mem_addToLabels_self _ _,
       not_mem_addToLabels _ _ _ (not_mem_removeFromLabels_self _ _) (by decide)⟩
    have hPstep : ∀ r : SdkPr,
        (mergedLabel ∈ r.labels ∧ inProgressLabel ∉ r.labels) →
        (mergedLabel ∈ (addToLabels servicePrLabel r).labels ∧
          inProgressLabel ∉ (addToLabels servicePrLabel r).labels) :=
      fun r hr => ⟨mem_addToLabels_of_mem _ _ _ hr.1,
        not_mem_addToLabels _ _ _ hr.2 (by decide)⟩
    simp only [closeSinglePr, hm, if_true]
    by_cases hmm : ((closeContextBranch tags).isSome && sdk_pr.mergeableFlag) = true
    · rw [if_pos hmm]
      have hctx : (closeContextBranch tags).isSome = true :=
        (Bool.and_eq_true _ _).mp hmm |>.1
      rw [if_pos hctx]
      have hw3 := findPr_mapPr_self _ sdk_pr.number closeState
        (fun r => closeState_number r) _ hw2
      refine createContextPr_preserves env tags sdk_base _ sdk_pr.number
        (fun r => mergedLabel ∈ r.labels ∧ inProgressLabel ∉ r.labels)
        hPstep _ hw3 ?_
      refine ⟨?_, ?_⟩
      · rw [closeState_labels]; exact hval.1
      · rw [closeState_labels]; exact hval.2
    · rw [if_neg hmm]
      by_cases hctx : (closeContextBranch tags).isSome = true
      · rw [if_pos hctx]
        exact createContextPr_preserves env tags sdk_base _ sdk_pr.number
          (fun r => mergedLabel ∈ r.labels ∧ inProgressLabel ∉ r.labels)
          hPstep _ hw2 hval
      · rw [if_neg hctx]
        exact ⟨_, hw2, hval⟩
  · intro hm
    have hw2 := findPr_mapPr_self _ sdk_pr.number (addToLabels refusedLabel)
      (fun r => addToLabels_number _ r) _ hw1
    have hw3 := findPr_mapPr_self _ sdk_pr.number closeState
      (fun r => closeState_number r) _ hw2
    have hval : refusedLabel ∈ (closeState (addToLabels refusedLabel
          (removeFromLabels inProgressLabel q0))).labels ∧
        inProgressLabel ∉ (closeState (addToLabels refusedLabel
          (removeFromLabels inProgressLabel q0))).labels ∧
        (closeState (addToLabels refusedLabel
          (removeFromLabels inProgressLabel q0))).state = "closed" := by
      refine ⟨?_, ?_, rfl⟩
      · rw [closeState_labels]; exact mem_addToLabels_self _ _
      · rw [closeState_labels]
        exact not_mem_addToLabels _ _ _ (not_mem_removeFromLabels_self _ _) (by decide)
    have hPstep : ∀ r : SdkPr,
        (refusedLabel ∈ r.labels ∧ inProgressLabel ∉ r.labels ∧ r.state = "closed") →
        (refusedLabel ∈ (addToLabels servicePrLabel r).labels ∧
          inProgressLabel ∉ (addToLabels servicePrLabel r).labels ∧
          (addToLabels servicePrLabel r).state = "closed") :=
      fun r hr => ⟨mem_addToLabels_of_mem _ _ _ hr.1,
        not_mem_addToLabels _ _ _ hr.2.1 (by decide),
        by rw [addToLabels_state]; exact hr.2.2⟩
    simp only [closeSinglePr, hm, Bool.false_eq_true, if_false]
    by_cases hctx : (closeContextBranch tags).isSome = true
    · rw [if_pos hctx]
      exact createContextPr_preserves env tags sdk_base _ sdk_pr.number
        (fun r => refusedLabel ∈ r.labels ∧ inProgressLabel ∉ r.labels ∧
          r.state = "closed")
        hPstep _ hw3 hval
    · rw [if_neg hctx]
      exact ⟨_, hw3, hval⟩

/-- Claim C8: for a closed source event whose lookup finds a unique matching
target PR, the close flow mirrors the source outcome onto that PR: when the
source PR was merged the target PR ends with the `RestPRMerged` label present
and `RestPRInProgress` absent; when it was closed unmerged the target PR ends
with `RestPRRefused` present, `RestPRInProgress` absent, and its state set to
closed (github.py:343-357). -/
theorem close_mirrors_source_outcome (env : Env) (body : WebhookBody)
    (tags : List String) (w : World) (p : SdkPr)
    (hmatch : findPulls w (closeHead env body) (closeLookupBase env body tags) = [p]) :
    (body.pullRequest.merged = true →
      ∃ q, (restPullClose env body tags w).findPr p.number = some q ∧
        mergedLabel ∈ q.labels ∧ inProgressLabel ∉ q.labels) ∧
    (body.pullRequest.merged = false →
      ∃ q, (restPullClose env body tags w).findPr p.number = some q ∧
        refusedLabel ∈ q.labels ∧ inProgressLabel ∉ q.labels ∧ q.state = "closed") := by
  have hp_mem : p ∈ w.prs := by
    have hmem : p ∈ findPulls w (closeHead env body) (closeLookupBase env body tags) := by
      rw [hmatch]
      exact List.mem_cons_self _ _
    exact List.mem_of_mem_filter hmem
  have hfind : ((w.logLookup (closeHead env body)
      (closeLookupBase env body tags)).findPr p.number).isSome := by
    rw [World.findPr, List.find?_isSome]
    exact ⟨p, hp_mem, by simp⟩
  obtain ⟨q0, hq0⟩ := Option.isSome_iff_exists.mp hfind
  rw [restPullClose_single env body tags w p hmatch]
  exact closeSinglePr_outcome env body tags _ p _ q0 hq0

/-- The fork PR webhook body as a `closed` event with `merged = true`. -/
def bodyCloseMerged : WebhookBody :=
  { bodyFork with
    action := "closed"
    pullRequest := { forkPayload with merged := true } }

/-- Witness for C8: closing the merged source PR against the world holding
exactly `prCtx` leaves the target PR labelled `RestPRMerged` and no longer
`RestPRInProgress`. -/
theorem close_mirrors_source_outcome_witness :
    findPulls worldB (closeHead envA bodyCloseMerged)
      (closeLookupBase envA bodyCloseMerged ["dns"]) = [prCtx] ∧
    ∃ q, (restPullClose envA bodyCloseMerged ["dns"] worldB).findPr prCtx.number = some q ∧
      mergedLabel ∈ q.labels ∧ inProgressLabel ∉ q.labels := by
  have h := close_mirrors_source_outcome envA bodyCloseMerged ["dns"] worldB prCtx
    (by decide)
  exact ⟨by decide, h.1 rfl⟩

/-- `mapPr` never posts comments. -/
theorem mapPr_comments (w : World) (n : Nat) (f : SdkPr → SdkPr) :
    (w.mapPr n f).comments = w.comments := rfl

/-- `getOrCreatePull` never posts comments. -/
theorem getOrCreatePull_comments (w : World) (t b h bs : String) :
    ((getOrCreatePull w t b h bs).2).comments = w.comments := by
  simp only [getOrCreatePull]
  split <;> rfl

/-- `create_context_pr` never posts comments. -/
theorem createContextPr_comments (env : Env) (tags : List String) (sdkBase : String)
    (w : World) : (createContextPr env tags sdkBase w).comments = w.comments := by
  simp only [createContextPr, mapPr_comments]
  exact getOrCreatePull_comments w _ _ _ _

/-- The single-PR branch of the close flow posts no comments. -/
theorem closeSinglePr_comments (env : Env) (body : WebhookBody) (tags : List String)
    (sdk_base : String) (sdk_pr : SdkPr) (w : World) :
    (closeSinglePr env body tags sdk_base sdk_pr w).comments = w.comments := by
  simp only [closeSinglePr]
  split
  · rw [createContextPr_comments]
    split
    · split <;> rfl
    · rfl
  · split
    · split <;> rfl
    · rfl

/-- Claim C10: when the close flow's first lookup for the target PR finds
nothing, it runs the full open flow (`rest_pull_open`: generation, PR
creation, labelling) for the event and then repeats the lookup
(github.py:330-337); only when that second lookup also finds nothing is the
failure comment posted (github.py:339-342) — when it finds a PR, the close
flow continues on the open flow's result without posting any failure
comment. -/
theorem close_missing_pr_runs_open_first (env : Env) (body : WebhookBody)
    (tags : List String) (w : World)
    (hempty : findPulls w (closeHead env body) (closeLookupBase env body tags) = []) :
    (findPulls (restPullOpen env body tags
        (w.logLookup (closeHead env body) (closeLookupBase env body tags)))
        (closeHead env body) (closeLookupBase env body tags) = [] →
      restPullClose env body tags w =
        ((restPullOpen env body tags
            (w.logLookup (closeHead env body) (closeLookupBase env body tags))).logLookup
          (closeHead env body) (closeLookupBase env body tags)).dashComment
          ("Was unable to create SDK " ++ env.sdkTag ++ " PR for this closed PR.")) ∧
    (∀ p rest, findPulls (restPullOpen env body tags
        (w.logLookup (closeHead env body) (closeLookupBase env body tags)))
        (closeHead env body) (closeLookupBase env body tags) = p :: rest →
      (restPullClose env body tags w).comments =
        (restPullOpen env body tags
          (w.logLookup (closeHead env body) (closeLookupBase env body tags))).comments) := by
  constructor
  · intro h2
    simp only [restPullClose, findPulls_logLookup, hempty, List.isEmpty_nil, if_true, h2]
  · intro p rest h2
    simp only [restPullClose, findPulls_logLookup, hempty, List.isEmpty_nil, if_true, h2]
    cases rest with
    | nil =>
      rw [closeSinglePr_comments]
      rfl
    | cons r rs => rfl

/-- Witness for C10: on the empty world with a clean generator run, the inner
open flow creates no PR, the second lookup also finds nothing, and the close
flow ends in exactly the failure comment. -/
theorem close_missing_pr_runs_open_first_witness :
    findPulls emptyWorld (closeHead envClean bodyFork)
      (closeLookupBase envClean bodyFork ["dns"]) = [] ∧
    restPullClose envClean bodyFork ["dns"] emptyWorld =
      ((restPullOpen envClean bodyFork ["dns"]
          (emptyWorld.logLookup (closeHead envClean bodyFork)
            (closeLookupBase envClean bodyFork ["dns"]))).logLookup
        (closeHead envClean bodyFork) (closeLookupBase envClean bodyFork ["dns"])).dashComment
        ("Was unable to create SDK " ++ envClean.sdkTag ++ " PR for this closed PR.") := by
  have h := close_missing_pr_runs_open_first envClean bodyFork ["dns"] emptyWorld
    (by decide)
  exact ⟨by decide, h.1 (by decide)⟩

end SwaggerToSdk
